/-
Verification of the ros2 batch-job orchestration pipeline.

Shallow embedding of `src/ros2_batch_job/__main__.py` and
`src/ros2_batch_job/packaging.py`.  External effects (process execution,
filesystem mutation, environment mutation) are modelled as an ordered event
trace inside a state-passing monad; fatal terminations (`sys.exit`, the
fail-fast command runner, unhandled Python exceptions) are modelled with an
`Except`-style result that still carries the state reached at the point of
failure, so that theorems can speak about which side effects had already
happened when a run aborted.

The repository ships only `__main__.py` and `packaging.py`; the `util`
module (`change_directory`, `clean_workspace`, `generated_venv_vars`, the
command runner used by `job.run`) and the per-platform batch-job classes are
referenced but absent.  Definitions for those are modelled from the spec and
are marked as such in their doc comments.
-/
import Mathlib

deriving instance DecidableEq for Except

namespace Ros2Batch

/-- ASCII lowering of one character; models Python `str.lower` on the ASCII
platform strings involved (chosen over `String.toLower` so that concrete
runs reduce inside the kernel). -/
def lowerChar (c : Char) : Char :=
  if 'A' ≤ c ∧ c ≤ 'Z' then Char.ofNat (c.toNat + 32) else c

/-- Python `str.lower` (ASCII). -/
def lowerStr (s : String) : String := String.mk (s.data.map lowerChar)

/-- Python `str.startswith`. -/
def strStarts (s pat : String) : Bool := pat.data.isPrefixOf s.data

/-- The three operating-system selectors accepted by the `--os` flag
(`choices=['linux', 'osx', 'windows']` in `__main__.py`). -/
inductive OsName where
  | linux
  | osx
  | windows
deriving DecidableEq, Fintype

/-- The four workspace-directory selectors accepted by `--white-space-in`
(`choices=['sourcespace', 'buildspace', 'installspace', 'workspace']`). -/
inductive SpaceName where
  | sourcespace
  | buildspace
  | installspace
  | workspace
deriving DecidableEq, Fintype

/-- The parsed argument vector of `__main__.main` (the `args` namespace
produced by `argparse`): every field corresponds to one `add_argument`
declaration in `__main__.py`.  `argparse` guarantees `os`, when present, is
one of the three supported choices. -/
structure Args where
  repo_file_url : String
  test_branch : Option String
  white_space_in : Option (List SpaceName)
  do_venv : Bool
  os : Option OsName
  connext : Bool
  force_ansi_color : Bool
deriving DecidableEq

/-- The four resolved workspace subdirectory names
(`args.workspace`, `args.sourcespace`, `args.buildspace`,
`args.installspace` as assigned in `__main__.py` lines 84-88). -/
structure Spaces where
  workspace : String
  sourcespace : String
  buildspace : String
  installspace : String
deriving DecidableEq

/-- `__main__.py` lines 84-88: `args.white_space_in = args.white_space_in or []`
followed by the four conditional-expression assignments. -/
def resolveSpaces (wsi : Option (List SpaceName)) : Spaces :=
  let l := wsi.getD []
  { workspace := if SpaceName.workspace ∈ l then "work space" else "workspace"
    sourcespace := if SpaceName.sourcespace ∈ l then "source space" else "src"
    buildspace := if SpaceName.buildspace ∈ l then "build space" else "build"
    installspace := if SpaceName.installspace ∈ l then "install space" else "install" }

/-- `__main__.py` lines 90-102: the platform-selection if-chain.
`platformName` is the raw `platform.platform()` string; the code lowercases
it before the `startswith` tests.  Each branch fires when the explicit flag
names that OS *or* the host platform string starts with that OS marker, and
the branches are tested in the fixed order linux, osx, windows.  The branch
also reassigns `args.os` to its own OS name; the returned value is that
reassigned `args.os` (and the selected batch-job variant).  When no branch
fires, `job` stays `None` and `args.os` keeps its parsed value (which must
then have been `None`, since an explicit flag always fires its own branch). -/
def selectOs (osFlag : Option OsName) (platformName : String) : Option OsName :=
  let pn := lowerStr platformName
  if osFlag = some OsName.linux ∨ strStarts pn "linux" then some OsName.linux
  else if osFlag = some OsName.osx ∨ strStarts pn "darwin" then some OsName.osx
  else if osFlag = some OsName.windows ∨ strStarts pn "windows" then some OsName.windows
  else none

/-- The host-platform marker each selection branch tests with `startswith`:
`linux` for Linux, `darwin` for macOS, `windows` for Windows. -/
def osMarker (o : OsName) : String :=
  match o with
  | OsName.linux => "linux"
  | OsName.osx => "darwin"
  | OsName.windows => "windows"

/-- Whether the (lowercased) host platform string auto-detects as `o`. -/
def detectsHost (platformName : String) (o : OsName) : Bool :=
  strStarts (lowerStr platformName) (osMarker o)

/-- Position of each OS in the if-chain of `__main__.py` lines 91-102. -/
def branchIdx (o : OsName) : Nat :=
  match o with
  | OsName.linux => 0
  | OsName.osx => 1
  | OsName.windows => 2

/-- One observable side effect of a run, in trace order. -/
inductive Ev where
  /-- `os.environ[k] = v`. -/
  | setEnv (k v : String)
  /-- `clean_workspace(dir)`: destructive clear/recreate of the workspace
  root (stage WorkspacePrep). -/
  | cleanWorkspace (dir : String)
  /-- `job.pre()`. -/
  | jobPre
  /-- `job.show_env()`. -/
  | jobShowEnv
  /-- `job.setup_env()`. -/
  | jobSetupEnv
  /-- One `job.run(tokens, shell=?, exit_on_error=?)` invocation together
  with the exit code the external command returned. -/
  | cmd (tokens : List String) (shell : Bool) (exitOnError : Bool) (code : Nat)
  /-- Entering the scoped directory change (`with change_directory(d)`). -/
  | chdirEnter (dir : String)
  /-- Restoring the prior working directory when the scoped block exits. -/
  | chdirRestore (dir : String)
  /-- Reading and echoing `ros2.repos` after the manifest fetch. -/
  | readRepos
  /-- `os.makedirs(args.sourcespace)`. -/
  | mkdirs (dir : String)
  /-- The interactive remote-debugger hook entered when the build returns a
  non-zero code (`remote_pdb.set_trace`). -/
  | debugHook
  /-- Writing the `AMENT_IGNORE` sentinel marker (packaging). -/
  | writeMarker (path : String)
  /-- Removing the `AMENT_IGNORE` sentinel marker (packaging). -/
  | removeMarker (path : String)
  /-- `os.remove` of one unwanted produced executable (packaging). -/
  | removeFile (path : String)
  /-- `shutil.copy` of one OpenCV DLL (packaging, windows branch). -/
  | copyFile (srcPath dstPath : String)
  /-- Writing the final archive file (packaging). -/
  | archive (path : String)
deriving DecidableEq

/-- How a run can terminate abnormally. -/
inductive Fatal where
  /-- `sys.exit(msg)`: terminates with exit code 1 and the message. -/
  | configExit (msg : String)
  /-- The fail-fast command runner terminating the process with the failed
  command's exit code. -/
  | cmdExit (code : Nat)
  /-- An unhandled Python `AttributeError` (e.g. calling a method on
  `None`). -/
  | attrError (msg : String)
  /-- An explicitly raised `RuntimeError` (packaging, unsupported OS). -/
  | runtimeError (msg : String)
deriving DecidableEq

/-- The mutable execution state threaded through a run: the working
directory, the ordered event trace, the job's active interpreter path
(`job.python`), the venv activation wrapper pushed by `job.push_run`, and
whether the packaging sentinel marker file currently exists. -/
structure RunSt where
  cwd : String
  events : List Ev
  jobPython : String
  jobRunWrap : Option String
  marker : Bool
deriving DecidableEq

/-- State-passing computation that can fail fatally; unlike `ExceptT`, the
state reached at the failure point is preserved alongside the error. -/
def M (α : Type) : Type := RunSt → Except Fatal α × RunSt

def pureM {α : Type} (a : α) : M α := fun s => (Except.ok a, s)

def bindM {α β : Type} (x : M α) (f : α → M β) : M β := fun s =>
  match x s with
  | (Except.ok a, s1) => f a s1
  | (Except.error e, s1) => (Except.error e, s1)

/-- Append one event to the trace. -/
def emit (e : Ev) : M Unit := fun s =>
  (Except.ok (), { s with events := s.events ++ [e] })

def getCwd : M String := fun s => (Except.ok s.cwd, s)

def getPython : M String := fun s => (Except.ok s.jobPython, s)

/-- `job.push_run(venv)`: wholesale replacement of the run wrapper
(modelled from the spec's `pushRunPrefix`; the batch-job classes are not in
the repository snapshot). -/
def push_run (w : String) : M Unit := fun s =>
  (Except.ok (), { s with jobRunWrap := some w })

/-- `job.push_python(venv_python)`: wholesale replacement of the active
interpreter path (modelled from the spec's `pushInterpreter`). -/
def push_python (p : String) : M Unit := fun s =>
  (Except.ok (), { s with jobPython := p })

/-- `sys.exit(msg)`: Python exits with code 1 when handed a string. -/
def configExitM {α : Type} (msg : String) : M α := fun s =>
  (Except.error (Fatal.configExit msg), s)

/-- An unhandled `AttributeError` escaping `main`. -/
def attrFail {α : Type} (msg : String) : M α := fun s =>
  (Except.error (Fatal.attrError msg), s)

/-- `raise RuntimeError(msg)`. -/
def runtimeFail {α : Type} (msg : String) : M α := fun s =>
  (Except.error (Fatal.runtimeError msg), s)

/-- Modelled from the spec: the CommandRunner behind `job.run` (the batch-job
classes and `util` module are not in the repository snapshot).  The
invocation is logged to the trace regardless of outcome; the external
command's exit code is supplied by the `world` oracle as a function of the
token sequence; with `exit_on_error` true (the default) a non-zero code
terminates the entire process immediately with that code, otherwise the code
is returned to the caller. -/
def jobRun (world : List String → Nat) (tokens : List String)
    (shell : Bool) (exit_on_error : Bool) : M Nat := fun s =>
  let c := world tokens
  let s1 := { s with events := s.events ++ [Ev.cmd tokens shell exit_on_error c] }
  if exit_on_error ∧ c ≠ 0 then (Except.error (Fatal.cmdExit c), s1)
  else (Except.ok c, s1)

/-- `os.path.join` of one further component, posix convention. -/
def pathJoin (a b : String) : String := a ++ "/" ++ b

/-- Modelled from the spec: `change_directory` from the missing `util`
module — scoped acquisition: the working directory is changed for the body
and the prior directory is restored on every exit path (normal return,
early return, or propagated failure); nesting is supported. -/
def change_directory {α : Type} (dir : String) (body : M α) : M α := fun s =>
  let prev := s.cwd
  let s1 : RunSt :=
    { s with cwd := pathJoin s.cwd dir, events := s.events ++ [Ev.chdirEnter dir] }
  let r := body s1
  (r.1, { r.2 with cwd := prev, events := r.2.events ++ [Ev.chdirRestore prev] })

/-- Modelled from the spec: `clean_workspace` from the missing `util`
module — destructive clear/recreate of the workspace root (WorkspacePrep). -/
def clean_workspace (dir : String) : M Unit := emit (Ev.cleanWorkspace dir)

/-- Modelled from the spec: the activation wrapper half of
`generated_venv_vars` from the missing `util` module (OS-convention
dependent; the exact string is irrelevant to every claim). -/
def venvActivateOf (venvPath : String) : String := pathJoin venvPath "bin/activate"

/-- Modelled from the spec: the environment-local interpreter half of
`generated_venv_vars` from the missing `util` module. -/
def venvPythonOf (venvPath : String) : String := pathJoin venvPath "bin/python"

/-! ## The command token sequences built by `__main__.main`

Each definition is the literal Python token list, with `sys.executable` and
`job.python` as parameters.  `'"%s"' % x` quoting is `quoteArg`. -/

/-- Python's `'"%s"' % s` quoting used for paths that may contain spaces. -/
def quoteArg (s : String) : String := "\"" ++ s ++ "\""

/-- Line 127: `[sys.executable, '-m', 'pip', 'install', '-U', 'virtualenv']`. -/
def prereqCmd (sysE : String) : List String :=
  [sysE, "-m", "pip", "install", "-U", "virtualenv"]

/-- Line 132: `[sys.executable, '-m', 'virtualenv', '-p', sys.executable, 'venv']`. -/
def venvCmd (sysE : String) : List String :=
  [sysE, "-m", "virtualenv", "-p", sysE, "venv"]

/-- Line 139: `[job.python, '-m', 'pip', 'install', '-U', 'pip', 'setuptools']`. -/
def setuptoolsCmd (py : String) : List String :=
  [py, "-m", "pip", "install", "-U", "pip", "setuptools"]

/-- Line 141: the setuptools version print (run with `shell=True`). -/
def setuptoolsVersionCmd (py : String) : List String :=
  [py, "-c", "\"import setuptools; print(setuptools.__version__)\""]

/-- Line 144: `[job.python, '-m', 'pip', '--version']`. -/
def pipVersionCmd (py : String) : List String :=
  [py, "-m", "pip", "--version"]

/-- Module-level `pip_dependencies` list of `__main__.py`. -/
def pip_dependencies : List String :=
  ["nose", "pep8", "pyflakes", "flake8", "mock", "coverage", "EmPy", "vcstool"]

/-- Line 146: `[job.python, '-m', 'pip', 'install', '-U'] + pip_dependencies`. -/
def depsCmd (py : String) : List String :=
  [py, "-m", "pip", "install", "-U"] ++ pip_dependencies

/-- Line 148: `['curl', '-sk', args.repo_file_url, '-o', 'ros2.repos']`
(the manifest fetch). -/
def fetchCmd (url : String) : List String :=
  ["curl", "-sk", url, "-o", "ros2.repos"]

/-- Line 156: `['vcs', 'import', '"%s"' % args.sourcespace, '--input', 'ros2.repos']`
(the source checkout, run with `shell=True`). -/
def importSrcCmd (sourcespace : String) : List String :=
  ["vcs", "import", quoteArg sourcespace, "--input", "ros2.repos"]

/-- Line 161: `['vcs', 'custom', '.', '--args', 'checkout', args.test_branch]`. -/
def branchCmd (b : String) : List String :=
  ["vcs", "custom", ".", "--args", "checkout", b]

/-- Line 166: `['vcs', 'log', '-l1', 'src']`. -/
def vcsLogCmd : List String := ["vcs", "log", "-l1", "src"]

/-- Lines 169-171: `'"%s"' % os.path.join('.', args.sourcespace, 'ament',
'ament_tools', 'scripts', 'ament.py')` (posix path convention). -/
def amentPyOf (sourcespace : String) : String :=
  quoteArg ("./" ++ sourcespace ++ "/ament/ament_tools/scripts/ament.py")

/-- Lines 173-178: the `ament.py build` invocation (run with
`exit_on_error=False`). -/
def buildCmd (py sourcespace buildspace installspace : String) : List String :=
  [py, "-u", amentPyOf sourcespace, "build", "--build-tests",
   "--build-space", quoteArg buildspace,
   "--install-space", quoteArg installspace,
   quoteArg sourcespace]

/-- Lines 185-192: the `ament.py test` invocation (run with
`exit_on_error=False`). -/
def testCmd (py sourcespace buildspace installspace : String) : List String :=
  [py, "-u", amentPyOf sourcespace, "test",
   "--build-space", quoteArg buildspace,
   "--install-space", quoteArg installspace,
   "--skip-build", "--skip-install",
   quoteArg sourcespace]

/-- Lines 195-198: the `ament.py test_results` invocation (run with
`exit_on_error=False`). -/
def testResultsCmd (py sourcespace buildspace : String) : List String :=
  [py, "-u", amentPyOf sourcespace, "test_results", quoteArg buildspace]

/-! ## The pipeline of `__main__.main` -/

/-- The body of `with change_directory(args.workspace):` — `__main__.py`
lines 129-202, statement by statement.  `srcExists` models the
`os.path.exists(args.sourcespace)` probe. -/
def innerBody (sysE url : String) (tb : Option String) (doVenv srcExists : Bool)
    (sp : Spaces) (world : List String → Nat) : M Nat :=
  bindM (if doVenv then
      bindM (jobRun world (venvCmd sysE) false true) (fun _ =>
      bindM getCwd (fun cwd =>
      let venv_path := pathJoin cwd "venv"
      bindM (push_run (venvActivateOf venv_path)) (fun _ =>
      bindM (push_python (venvPythonOf venv_path)) (fun _ =>
      emit Ev.jobShowEnv))))
    else pureM ()) (fun _ =>
  bindM getPython (fun py =>
  bindM (jobRun world (setuptoolsCmd py) false true) (fun _ =>
  bindM (jobRun world (setuptoolsVersionCmd py) true true) (fun _ =>
  bindM (jobRun world (pipVersionCmd py) false true) (fun _ =>
  bindM (jobRun world (depsCmd py) false true) (fun _ =>
  bindM (jobRun world (fetchCmd url) false true) (fun _ =>
  bindM (emit Ev.readRepos) (fun _ =>
  bindM (if srcExists then pureM () else emit (Ev.mkdirs sp.sourcespace)) (fun _ =>
  bindM (jobRun world (importSrcCmd sp.sourcespace) true true) (fun _ =>
  bindM (match tb with
    | none => pureM ()
    | some b => bindM (jobRun world (branchCmd b) false false) (fun _ => pureM ()))
    (fun _ =>
  bindM (jobRun world vcsLogCmd false true) (fun _ =>
  bindM (emit Ev.jobSetupEnv) (fun _ =>
  bindM (jobRun world (buildCmd py sp.sourcespace sp.buildspace sp.installspace)
      false false) (fun ret_build =>
  bindM (if ret_build ≠ 0 then emit Ev.debugHook else pureM ()) (fun _ =>
  bindM (jobRun world (testCmd py sp.sourcespace sp.buildspace sp.installspace)
      false false) (fun _ =>
  bindM (jobRun world (testResultsCmd py sp.sourcespace sp.buildspace)
      false false) (fun _ =>
  pureM 0)))))))))))))))))

/-- `__main__.main` after argument parsing — `__main__.py` lines 82-202,
statement by statement:
selection of the batch-job variant (lines 90-102), the
`--do-venv`-on-windows rejection (lines 104-105), the `TERM`/`ConEmuANSI`
environment mutations (lines 107-112), `clean_workspace` (line 115), the
job hooks and the virtualenv prerequisite install (lines 118-127), then the
scoped directory change into the workspace with the remaining stages.
When no selection branch fired, `job` is `None` and the first method call
`job.pre()` raises `AttributeError` (line 118).
`initTERM` models `os.environ.get('TERM', ...)`. -/
def mainM (platformName sysE : String) (initTERM : Option String)
    (srcExists : Bool) (args : Args) (world : List String → Nat) : M Nat :=
  let sp := resolveSpaces args.white_space_in
  let osSel := selectOs args.os platformName
  bindM (if args.do_venv ∧ osSel = some OsName.windows
      then configExitM "--do-venv is not supported on windows"
      else pureM ()) (fun _ =>
  bindM (emit (Ev.setEnv "TERM" (initTERM.getD "xterm-256color"))) (fun _ =>
  bindM (if osSel = some OsName.windows
      then emit (Ev.setEnv "ConEmuANSI" "ON")
      else pureM ()) (fun _ =>
  bindM (clean_workspace sp.workspace) (fun _ =>
  match osSel with
  | none => attrFail "NoneType object has no attribute pre"
  | some osv =>
    bindM (emit Ev.jobPre) (fun _ =>
    bindM (emit Ev.jobShowEnv) (fun _ =>
    bindM (if osv ≠ OsName.linux
        then bindM (jobRun world (prereqCmd sysE) false true) (fun _ => pureM ())
        else pureM ()) (fun _ =>
    change_directory sp.workspace
      (innerBody sysE args.repo_file_url args.test_branch args.do_venv srcExists
        sp world))))))))

/-- The initial run state: the host working directory, an empty trace,
`job.python` at the host interpreter (`sys.executable`), no run wrapper and
no sentinel marker. -/
def initSt (cwd0 sysE : String) : RunSt :=
  { cwd := cwd0, events := [], jobPython := sysE, jobRunWrap := none,
    marker := false }

/-- One complete run of `__main__.main` from the initial state. -/
def mainRun (platformName sysE cwd0 : String) (initTERM : Option String)
    (srcExists : Bool) (args : Args) (world : List String → Nat) :
    Except Fatal Nat × RunSt :=
  mainM platformName sysE initTERM srcExists args world (initSt cwd0 sysE)

/-! ## The packaging module (`packaging.py`)

### Module import resolution (claim C4)

`packaging.py` begins with `from .__main__ import get_args` and
`from .__main__ import run`; a `from`-import fails with `ImportError` at
module load time when the source module does not bind the requested name. -/

/-- The names bound at module top level by `__main__.py`: the four plain
module imports, the seven names brought in from `.util`, the module-level
`pip_dependencies` list, and the single function definition `main`. -/
def mainModuleTopLevel : List String :=
  ["argparse", "os", "platform", "sys",
   "change_directory", "clean_workspace", "force_color", "generated_venv_vars",
   "info", "log", "UnbufferedIO",
   "pip_dependencies", "main"]

/-- The names `packaging.py` imports from `ros2_batch_job.__main__`
(lines 21-22), in source order. -/
def packagingImportsFromMain : List String := ["get_args", "run"]

/-- Python `from`-import resolution: succeeds when every requested name is
bound in the source module, otherwise fails with the first missing name. -/
def pyFromImport (available requested : List String) : Except String Unit :=
  match requested.find? (fun n => ¬ available.contains n) with
  | some n => Except.error ("cannot import name " ++ n)
  | none => Except.ok ()

/-- Loading the `packaging` module executes its import statements before any
function in it can run. -/
def loadPackagingModule : Except String Unit :=
  pyFromImport mainModuleTopLevel packagingImportsFromMain

/-- The packaging entry point `packaging.main(sysargv)`: the module must
load first; were the load to succeed it would call `get_args` and hand
`build_and_package` to `run` (unreachable, hence not elaborated further). -/
def packagingEntry (_sysargv : List String) : Except String Nat :=
  match loadPackagingModule with
  | Except.error e => Except.error e
  | Except.ok () => Except.ok 0

/-! ### `build_and_package` (`packaging.py` lines 31-114)

The function is embedded over the same monad `M`; `args` fields reaching it
are passed explicitly (`get_args` is absent from the snapshot, so the
argument object is taken as given).  Filesystem probes are oracle
parameters: `bridgeExists` models `os.path.exists(ros1_bridge_path)` and
`binFiles` models `os.listdir(install_bin_path)`. -/

/-- `os.path.join(args.sourcespace, 'ros2', 'ros1_bridge')`. -/
def bridgePath (sourcespace : String) : String :=
  pathJoin (pathJoin sourcespace "ros2") "ros1_bridge"

/-- `os.path.join(ros1_bridge_path, 'AMENT_IGNORE')`. -/
def bridgeMarkerPath (sourcespace : String) : String :=
  pathJoin (bridgePath sourcespace) "AMENT_IGNORE"

/-- Lines 46-54: the main `ament.py build` invocation of the packaging
stage, with `--isolated` appended when requested and the cmake flags
appended for every OS value other than `windows`. -/
def packBuildCmd (py sourcespace buildspace installspace : String)
    (isolated : Bool) (osArg : Option OsName) : List String :=
  [py, "-u", amentPyOf sourcespace, "build",
   "--build-space", quoteArg buildspace,
   "--install-space", quoteArg installspace,
   quoteArg sourcespace]
  ++ (if isolated then ["--isolated"] else [])
  ++ (if osArg ≠ some OsName.windows
      then ["--cmake-args", "-DCMAKE_BUILD_TYPE=RelWithDebInfo"]
      else [])

/-- Lines 64-73: the secondary single-job build scoped to `ros1_bridge`. -/
def bridgeBuildCmd (py sourcespace buildspace installspace : String)
    (isolated : Bool) : List String :=
  [py, "-u", amentPyOf sourcespace, "build",
   "--build-space", quoteArg buildspace,
   "--install-space", quoteArg installspace,
   "--only", "ros1_bridge",
   quoteArg sourcespace]
  ++ (if isolated then ["--isolated"] else [])
  ++ ["--cmake-args", "-DCMAKE_BUILD_TYPE=RelWithDebInfo",
      "--make-flags", "-j1"]

/-- Python `sub in s` substring membership: `s.split(sub)` has more than one
piece exactly when `sub` occurs in `s` (for non-empty `sub`). -/
def containsSub (s sub : String) : Bool := (s.splitOn sub).length ≠ 1

/-- Lines 78-82: whether one produced executable is removed
(`'__rmw_' in filename or filename.startswith('simple_bridge') or
filename.startswith('static_bridge')`). -/
def unwantedBin (filename : String) : Bool :=
  containsSub filename "__rmw_" ∨ strStarts filename "simple_bridge" ∨
    strStarts filename "static_bridge"

/-- Line 86: `folder_name = 'ros2-' + args.os`. -/
def osStr (o : OsName) : String :=
  match o with
  | OsName.linux => "linux"
  | OsName.osx => "osx"
  | OsName.windows => "windows"

def folderName (o : OsName) : String := "ros2-" ++ osStr o

/-- The archive file name each branch of lines 87-92 produces:
`'ros2-package-%s.tar.bz2' % args.os` on linux/osx,
`'ros2-package-windows.zip'` on windows. -/
def archiveName (o : OsName) : String :=
  match o with
  | OsName.linux => "ros2-package-" ++ osStr OsName.linux ++ ".tar.bz2"
  | OsName.osx => "ros2-package-" ++ osStr OsName.osx ++ ".tar.bz2"
  | OsName.windows => "ros2-package-windows.zip"

/-- Set the sentinel-marker bit alongside its trace event (line 39:
`with open(ros1_bridge_ignore_marker, 'w')`). -/
def writeMarkerM (path : String) : M Unit := fun s =>
  (Except.ok (), { s with marker := true, events := s.events ++ [Ev.writeMarker path] })

/-- Clear the sentinel-marker bit alongside its trace event (line 58:
`os.remove(ros1_bridge_ignore_marker)`). -/
def removeMarkerM (path : String) : M Unit := fun s =>
  (Except.ok (), { s with marker := false, events := s.events ++ [Ev.removeMarker path] })

/-- Lines 76-83: remove every unwanted executable from `install/bin`. -/
def removeBins (installspace : String) (binFiles : List String) : M Unit := fun s =>
  (Except.ok (),
   { s with events := s.events ++
       ((binFiles.filter unwantedBin).map (fun f =>
         Ev.removeFile (pathJoin (pathJoin installspace "bin") f))) })

/-- Lines 93-100: the windows-only OpenCV DLL copies into `install/bin`. -/
def opencvCopies (installspace : String) : M Unit := fun s =>
  (Except.ok (),
   { s with events := s.events ++
       [Ev.copyFile "c:/opencv/build/x64/vc14/bin/opencv_core2412.dll"
          (pathJoin (pathJoin installspace "bin") "opencv_core2411.dll"),
        Ev.copyFile "c:/opencv/build/x64/vc14/bin/opencv_core2412.dll"
          (pathJoin (pathJoin installspace "bin") "opencv_core2412.dll"),
        Ev.copyFile "c:/opencv/build/x64/vc14/bin/opencv_highgui2412.dll"
          (pathJoin (pathJoin installspace "bin") "opencv_highgui2411.dll"),
        Ev.copyFile "c:/opencv/build/x64/vc14/bin/opencv_highgui2412.dll"
          (pathJoin (pathJoin installspace "bin") "opencv_highgui2412.dll")] })

/-- `packaging.build_and_package` (lines 31-114), statement by statement:
write the `AMENT_IGNORE` marker when the bridge directory exists; run the
main build (fail-fast: `job.run` with the default `exit_on_error=True`);
remove the marker when it was written; run the single-job bridge build on
linux/osx; remove unwanted executables; write the OS-named archive, raising
`RuntimeError` for any other `args.os` value; return 0. -/
def build_and_package (py sourcespace buildspace installspace : String)
    (isolated : Bool) (osArg : Option OsName) (bridgeExists : Bool)
    (binFiles : List String) (world : List String → Nat) : M Nat :=
  bindM (if bridgeExists
      then writeMarkerM (bridgeMarkerPath sourcespace)
      else pureM ()) (fun _ =>
  bindM (jobRun world (packBuildCmd py sourcespace buildspace installspace isolated osArg)
      false true) (fun _ =>
  bindM (if bridgeExists
      then removeMarkerM (bridgeMarkerPath sourcespace)
      else pureM ()) (fun _ =>
  bindM (if osArg = some OsName.linux ∨ osArg = some OsName.osx
      then bindM (jobRun world
          (bridgeBuildCmd py sourcespace buildspace installspace isolated)
          false true) (fun _ => pureM ())
      else pureM ()) (fun _ =>
  bindM (removeBins installspace binFiles) (fun _ =>
  bindM (match osArg with
    | some OsName.linux => emit (Ev.archive (archiveName OsName.linux))
    | some OsName.osx => emit (Ev.archive (archiveName OsName.osx))
    | some OsName.windows =>
        bindM (opencvCopies installspace) (fun _ =>
        emit (Ev.archive (archiveName OsName.windows)))
    | none => runtimeFail "Unsupported operating system: None") (fun _ =>
  pureM 0))))))

/-! ### Archive contents (claim C8)

Paths are modelled as component lists (posix convention, `os.path.join` is
list append).  The install tree is taken as the `os.walk` listing in effect
when the archive is assembled: one entry per directory, holding the
directory's path relative to the install space (`[]` for the install-space
root itself) and its plain file names. -/

/-- `os.path.relpath(dirname, start=installspace)` in components: the
install-space root itself yields `['.']`. -/
def relpathComps (d : List String) : List String :=
  if d.isEmpty then ["."] else d

/-- `posixpath.normpath` on a relative path without `..` components, as
applied by `zipfile.ZipInfo.from_file` to each arcname: drops `.`
components. -/
def normpathComps (p : List String) : List String :=
  p.filter (fun c => c ≠ ".")

/-- All files of the walk listing, as paths relative to the install space. -/
def treeFiles (walk : List (List String × List String)) : List (List String) :=
  walk.flatMap (fun e => e.2.map (fun f => e.1 ++ [f]))

/-- Lines 89-90 (`tarfile.open(.., 'w:bz2')` and
`h.add(args.installspace, arcname=folder_name)`): recursive add stores every
file of the tree under the arcname root, preserving relative paths. -/
def tarFileEntries (folder : String) (walk : List (List String × List String)) :
    List (List String) :=
  walk.flatMap (fun e => e.2.map (fun f => folder :: (e.1 ++ [f])))

/-- Lines 101-109 (`zipfile.ZipFile(.., 'w')` walking the install tree):
each file is stored under
`os.path.join(folder_name, os.path.relpath(dirname, installspace), filename)`,
which `ZipInfo.from_file` normalizes with `normpath`. -/
def zipFileEntries (folder : String) (walk : List (List String × List String)) :
    List (List String) :=
  walk.flatMap (fun e =>
    e.2.map (fun f => normpathComps ((folder :: relpathComps e.1) ++ [f])))

/-- The file entries of the archive `build_and_package` writes for each
supported OS: the tar branch for linux/osx, the zip branch for windows.
Extraction materializes exactly these stored paths. -/
def archiveFileEntries (o : OsName) (walk : List (List String × List String)) :
    List (List String) :=
  match o with
  | OsName.windows => zipFileEntries (folderName OsName.windows) walk
  | OsName.linux => tarFileEntries (folderName OsName.linux) walk
  | OsName.osx => tarFileEntries (folderName OsName.osx) walk

/-- One complete run of `packaging.build_and_package` from a fresh state. -/
def packagingRun (py cwd0 sourcespace buildspace installspace : String)
    (isolated : Bool) (osArg : Option OsName) (bridgeExists : Bool)
    (binFiles : List String) (world : List String → Nat) :
    Except Fatal Nat × RunSt :=
  build_and_package py sourcespace buildspace installspace isolated osArg
    bridgeExists binFiles world (initSt cwd0 py)

/-- The interpreter path (`job.python`) in effect from ToolchainUpdate
onward: the host interpreter, or the venv-local interpreter after the
EnvActivation stage replaced it. -/
def activePython (sysE cwd0 : String) (args : Args) : String :=
  if args.do_venv
  then venvPythonOf (pathJoin (pathJoin cwd0
    (resolveSpaces args.white_space_in).workspace) "venv")
  else sysE

/-- The `argparse` default argument vector of `__main__.py` (every flag at
its declared default). -/
def defaultArgs : Args :=
  { repo_file_url := "https://raw.githubusercontent.com/ros2/examples/master/ros2.repos"
    test_branch := none
    white_space_in := none
    do_venv := false
    os := none
    connext := false
    force_ansi_color := false }

end Ros2Batch

namespace Ros2Batch

/-! # Claim theorems -/

/-- C10: for every subset of the four workspace subdirectories selected via
`--white-space-in`, each selected name resolves to its literal with-space
variant and each non-selected name keeps its no-space default; with no
selection (including the option being absent, i.e. `none`), all four keep
their defaults. -/
theorem white_space_name_resolution (wsi : Option (List SpaceName)) :
    ((resolveSpaces wsi).workspace
      = if SpaceName.workspace ∈ wsi.getD [] then "work space" else "workspace")
    ∧ ((resolveSpaces wsi).sourcespace
      = if SpaceName.sourcespace ∈ wsi.getD [] then "source space" else "src")
    ∧ ((resolveSpaces wsi).buildspace
      = if SpaceName.buildspace ∈ wsi.getD [] then "build space" else "build")
    ∧ ((resolveSpaces wsi).installspace
      = if SpaceName.installspace ∈ wsi.getD [] then "install space" else "install")
    ∧ resolveSpaces none
      = { workspace := "workspace", sourcespace := "src",
          buildspace := "build", installspace := "install" } :=
  ⟨rfl, rfl, rfl, rfl, rfl⟩

/-- C4: for every argument vector, the packaging entry point fails with an
ImportError before any stage executes: `packaging.py` imports `get_args`
and `run` from `ros2_batch_job.__main__`, which binds neither name, so
module load raises `ImportError` and `build_and_package` is unreachable. -/
theorem packaging_entry_import_failure (sysargv : List String) :
    packagingEntry sysargv = Except.error "cannot import name get_args"
    ∧ loadPackagingModule = Except.error "cannot import name get_args" :=
  ⟨rfl, rfl⟩

/-- C7: every scoped directory change restores the working directory in
effect immediately before the change, on every exit path of the scoped
block — the body `body` is arbitrary, so this covers normal return, early
return, and propagated failure alike; the second conjunct shows the body's
result (success or fatal error) is propagated unchanged. -/
theorem scoped_directory_restores_cwd {α : Type} (dir : String) (body : M α)
    (s : RunSt) :
    (change_directory dir body s).2.cwd = s.cwd
    ∧ (change_directory dir body s).1
      = (body { s with cwd := pathJoin s.cwd dir,
                       events := s.events ++ [Ev.chdirEnter dir] }).1 :=
  ⟨rfl, rfl⟩

/-- C1 counterexample: with the explicit flag `--os osx` on a Linux host,
the selection of `__main__.py` lines 90-102 picks the *Linux* job variant,
not the one named by the flag — the first branch of the if-chain fires on
host auto-detection before the explicit flag is consulted. -/
theorem os_flag_not_honored_counterexample :
    selectOs (some OsName.osx) "Linux-5.15.0-x86_64-with-glibc2.31"
      = some OsName.linux
    ∧ some OsName.linux ≠ some OsName.osx := by
  exact ⟨by decide, by decide⟩

/-- C1 as amended: the selection if-chain tests linux, osx, windows in that
order, each branch firing on the explicit flag naming that OS or on host
auto-detection of that OS; consequently an explicit OS flag selects the
variant it names precisely when no earlier-listed OS is auto-detected from
the host platform string, and (second conjunct) with no flag the selection
is pure host auto-detection in the same order. -/
theorem os_flag_selection_amended (flag : OsName) (pn : String)
    (h : ∀ o : OsName, branchIdx o < branchIdx flag → detectsHost pn o = false) :
    selectOs (some flag) pn = some flag
    ∧ selectOs none pn
      = (if detectsHost pn OsName.linux then some OsName.linux
         else if detectsHost pn OsName.osx then some OsName.osx
         else if detectsHost pn OsName.windows then some OsName.windows
         else none) := by
  constructor
  · cases flag with
    | linux => simp [selectOs]
    | osx =>
        have h0 := h OsName.linux (by decide)
        simp only [detectsHost, osMarker] at h0
        simp [selectOs, h0]
    | windows =>
        have h0 := h OsName.linux (by decide)
        have h1 := h OsName.osx (by decide)
        simp only [detectsHost, osMarker] at h0 h1
        simp [selectOs, h0, h1]
  · simp only [selectOs, detectsHost, osMarker]
    simp

/-- Witness for `os_flag_selection_amended` at a concrete input: on a
Windows host (which detects no earlier-listed OS), the explicit
`--os windows` flag selects the Windows variant, and flagless selection
auto-detects Windows. -/
theorem os_flag_selection_amended_witness :
    selectOs (some OsName.windows) "Windows-10-10.0.19041-SP0"
      = some OsName.windows
    ∧ selectOs none "Windows-10-10.0.19041-SP0"
      = (if detectsHost "Windows-10-10.0.19041-SP0" OsName.linux then some OsName.linux
         else if detectsHost "Windows-10-10.0.19041-SP0" OsName.osx then some OsName.osx
         else if detectsHost "Windows-10-10.0.19041-SP0" OsName.windows then some OsName.windows
         else none) :=
  os_flag_selection_amended OsName.windows "Windows-10-10.0.19041-SP0"
    (by intro o ho; revert ho; cases o <;> decide)

/-- C2 (code bug): on a host whose platform string is detected as none of
linux/darwin/windows and with no explicit `--os` flag, the run does *not*
fail as a configuration error before side effects: it mutates the `TERM`
environment variable and runs the destructive `clean_workspace`
(WorkspacePrep) with `job` still `None`, and only then crashes with an
`AttributeError` at `job.pre()`. -/
theorem unsupported_platform_behavior :
    (mainRun "FreeBSD 13.2-RELEASE-p3" "/usr/bin/python3" "/home/ci" none false
      defaultArgs (fun _ => 0)).1
      = Except.error (Fatal.attrError "NoneType object has no attribute pre")
    ∧ (mainRun "FreeBSD 13.2-RELEASE-p3" "/usr/bin/python3" "/home/ci" none false
      defaultArgs (fun _ => 0)).2.events
      = [Ev.setEnv "TERM" "xterm-256color", Ev.cleanWorkspace "workspace"] := by
  exact ⟨by decide, by decide⟩

/-- C3 counterexample: an argument vector with `do-venv=true` and
`os=windows` does *not* abort on a Linux host — the selection if-chain
rewrites `args.os` to `linux` before the rejection check, so the check never
fires, the destructive WorkspacePrep runs, and the pipeline completes with
return value 0. -/
theorem venv_windows_not_rejected_counterexample :
    (mainRun "Linux-5.15.0-x86_64-with-glibc2.31" "/usr/bin/python3" "/home/ci"
      none false
      { defaultArgs with do_venv := true, os := some OsName.windows }
      (fun _ => 0)).1 = Except.ok 0
    ∧ Ev.cleanWorkspace "workspace"
      ∈ (mainRun "Linux-5.15.0-x86_64-with-glibc2.31" "/usr/bin/python3" "/home/ci"
        none false
        { defaultArgs with do_venv := true, os := some OsName.windows }
        (fun _ => 0)).2.events := by
  exact ⟨by decide, by decide⟩

/-- C3 as amended: whenever the *resolved* OS is windows (host detected as
windows, or the explicit windows flag with a host detected as neither linux
nor darwin) and `do-venv` is set, the pipeline exits with the non-zero
configuration error `sys.exit("--do-venv is not supported on windows")`
before any external command executes and before WorkspacePrep runs — the
event trace at exit is empty. -/
theorem venv_windows_rejected_when_resolved (pn sysE cwd0 : String)
    (term0 : Option String) (srcEx : Bool) (args : Args)
    (world : List String → Nat)
    (hv : args.do_venv = true)
    (hsel : selectOs args.os pn = some OsName.windows) :
    (mainRun pn sysE cwd0 term0 srcEx args world).1
      = Except.error (Fatal.configExit "--do-venv is not supported on windows")
    ∧ (mainRun pn sysE cwd0 term0 srcEx args world).2.events = [] := by
  unfold mainRun mainM
  simp [hsel, hv, configExitM, bindM, initSt]

/-- Witness for `venv_windows_rejected_when_resolved` at a concrete input:
`--do-venv` on a Windows host is rejected before any side effect. -/
theorem venv_windows_rejected_when_resolved_witness :
    (mainRun "Windows-10-10.0.19041-SP0" "C:/python/python.exe" "C:/ci" none false
      { defaultArgs with do_venv := true } (fun _ => 0)).1
      = Except.error (Fatal.configExit "--do-venv is not supported on windows")
    ∧ (mainRun "Windows-10-10.0.19041-SP0" "C:/python/python.exe" "C:/ci" none false
      { defaultArgs with do_venv := true } (fun _ => 0)).2.events = [] :=
  venv_windows_rejected_when_resolved "Windows-10-10.0.19041-SP0"
    "C:/python/python.exe" "C:/ci" none false
    { defaultArgs with do_venv := true } (fun _ => 0) rfl (by decide)

/-- Helper: the tar branch stores each tree file under the arcname root. -/
theorem tarFileEntries_eq (folder : String)
    (walk : List (List String × List String)) :
    tarFileEntries folder walk = (treeFiles walk).map (fun p => folder :: p) := by
  simp only [tarFileEntries, treeFiles, List.map_flatMap, List.map_map]
  rfl

/-- Helper: arcname normalization collapses the `.` produced by `relpath`
at the install-space root and keeps every real component. -/
theorem normpath_arc (folder : String) (d : List String) (f : String)
    (hfold : folder ≠ ".") (hd : ∀ c ∈ d, c ≠ ".") (hf : f ≠ ".") :
    normpathComps ((folder :: relpathComps d) ++ [f]) = folder :: (d ++ [f]) := by
  cases d with
  | nil => simp [normpathComps, relpathComps, hfold, hf]
  | cons a d2 =>
      have ha : a ≠ "." := hd a (by simp)
      have hd2 : ∀ c ∈ d2, c ≠ "." := fun c hc => hd c (by simp [hc])
      simp only [relpathComps, List.isEmpty_cons, Bool.false_eq_true, if_false,
        normpathComps, List.cons_append]
      rw [List.filter_eq_self]
      intro x hx
      simp only [List.mem_cons, List.mem_append, List.mem_singleton] at hx
      rcases hx with h1 | h2 | h3 | h4
      · simp [h1, hfold]
      · simp [h2, ha]
      · simpa using hd2 x h3
      · rcases h4 with h4 | h4
        · simp [h4, hf]
        · simp at h4

/-- Helper: the zip branch stores each tree file under the arcname root. -/
theorem zipFileEntries_eq (folder : String)
    (walk : List (List String × List String)) (hfold : folder ≠ ".") :
    (∀ e ∈ walk, (∀ c ∈ e.1, c ≠ ".") ∧ (∀ f ∈ e.2, f ≠ ".")) →
    zipFileEntries folder walk = (treeFiles walk).map (fun p => folder :: p) := by
  induction walk with
  | nil => intro _; rfl
  | cons e rest ih =>
      intro h
      have he := h e (by simp)
      have hr : ∀ x ∈ rest, (∀ c ∈ x.1, c ≠ ".") ∧ (∀ f ∈ x.2, f ≠ ".") :=
        fun x hx => h x (List.mem_cons_of_mem _ hx)
      have step1 : e.2.map (fun f => normpathComps ((folder :: relpathComps e.1) ++ [f]))
          = (e.2.map (fun f => e.1 ++ [f])).map (fun p => folder :: p) := by
        rw [List.map_map]
        apply List.map_congr_left
        intro f hf
        simp only [Function.comp]
        exact normpath_arc folder e.1 f hfold he.1 (he.2 f hf)
      calc zipFileEntries folder (e :: rest)
          = e.2.map (fun f => normpathComps ((folder :: relpathComps e.1) ++ [f]))
            ++ zipFileEntries folder rest := by
            simp [zipFileEntries, List.flatMap_cons]
        _ = (e.2.map (fun f => e.1 ++ [f])).map (fun p => folder :: p)
            ++ (treeFiles rest).map (fun p => folder :: p) := by
            rw [step1, ih hr]
        _ = (treeFiles (e :: rest)).map (fun p => folder :: p) := by
            simp [treeFiles, List.flatMap_cons]

/-- C8: for every supported OS and every install-directory walk listing in
effect when the archive is assembled, the archive is named
`ros2-package-<os>.tar.bz2` (linux/osx) or `ros2-package-<os>.zip`
(windows), and its stored file entries — what extraction materializes — are
exactly the tree's relative file paths under the single root directory
`ros2-<os>`.  The hypothesis states that no path component of the walk is
the literal `.` (true of every real directory listing). -/
theorem archive_roundtrip (o : OsName) (walk : List (List String × List String))
    (h : ∀ e ∈ walk, (∀ c ∈ e.1, c ≠ ".") ∧ (∀ f ∈ e.2, f ≠ ".")) :
    archiveName o = "ros2-package-" ++ osStr o
      ++ (if o = OsName.windows then ".zip" else ".tar.bz2")
    ∧ archiveFileEntries o walk
      = (treeFiles walk).map (fun p => folderName o :: p) := by
  constructor
  · cases o <;> rfl
  · cases o with
    | windows => exact zipFileEntries_eq _ _ (by decide) h
    | linux => exact tarFileEntries_eq _ _
    | osx => exact tarFileEntries_eq _ _

/-- Witness for `archive_roundtrip` at a concrete install tree and the
windows (zip) branch. -/
theorem archive_roundtrip_witness :
    archiveName OsName.windows = "ros2-package-" ++ osStr OsName.windows
      ++ (if OsName.windows = OsName.windows then ".zip" else ".tar.bz2")
    ∧ archiveFileEntries OsName.windows [([], ["a.txt"]), (["bin"], ["tool", "x"])]
      = (treeFiles [([], ["a.txt"]), (["bin"], ["tool", "x"])]).map
          (fun p => folderName OsName.windows :: p) :=
  archive_roundtrip OsName.windows [([], ["a.txt"]), (["bin"], ["tool", "x"])] (by decide)

/-- C9: in every packaging run where the masked subdirectory
`sourcespace/ros2/ros1_bridge` exists at stage start, the `AMENT_IGNORE`
sentinel is written before the main build-tool invocation (first conjunct:
the trace begins with the marker write followed by the main build command)
and removed immediately afterward (second conjunct: when execution
continues past the fail-fast main build, the removal is the very next
event and no sentinel remains in the final state, whatever the later
stages do); a run whose main build fails aborts at that command and never
passes the main build (third conjunct). -/
theorem packaging_marker_lifecycle (py cwd0 srcsp bldsp inssp : String)
    (isolated : Bool) (osArg : Option OsName) (binFiles : List String)
    (world : List String → Nat) :
    (∃ rest,
      (packagingRun py cwd0 srcsp bldsp inssp isolated osArg true binFiles world).2.events
        = Ev.writeMarker (bridgeMarkerPath srcsp)
          :: Ev.cmd (packBuildCmd py srcsp bldsp inssp isolated osArg) false true
               (world (packBuildCmd py srcsp bldsp inssp isolated osArg)) :: rest)
    ∧ (world (packBuildCmd py srcsp bldsp inssp isolated osArg) = 0 →
        (packagingRun py cwd0 srcsp bldsp inssp isolated osArg true binFiles world).2.marker
          = false
        ∧ ∃ rest,
          (packagingRun py cwd0 srcsp bldsp inssp isolated osArg true binFiles world).2.events
            = Ev.writeMarker (bridgeMarkerPath srcsp)
              :: Ev.cmd (packBuildCmd py srcsp bldsp inssp isolated osArg) false true 0
              :: Ev.removeMarker (bridgeMarkerPath srcsp) :: rest)
    ∧ (∀ c, c ≠ 0 → world (packBuildCmd py srcsp bldsp inssp isolated osArg) = c →
        (packagingRun py cwd0 srcsp bldsp inssp isolated osArg true binFiles world).1
          = Except.error (Fatal.cmdExit c)
        ∧ (packagingRun py cwd0 srcsp bldsp inssp isolated osArg true binFiles world).2.events
          = [Ev.writeMarker (bridgeMarkerPath srcsp),
             Ev.cmd (packBuildCmd py srcsp bldsp inssp isolated osArg) false true c]
        ∧ (packagingRun py cwd0 srcsp bldsp inssp isolated osArg true binFiles world).2.marker
          = true) := by
  refine ⟨?_, ?_, ?_⟩
  · by_cases h0 : world (packBuildCmd py srcsp bldsp inssp isolated osArg) = 0
    · rcases osArg with _ | o
      · simp [packagingRun, build_and_package, bindM, pureM, jobRun, writeMarkerM,
          removeMarkerM, removeBins, opencvCopies, emit, runtimeFail, initSt, h0]
      · cases o <;>
        · by_cases hb : world (bridgeBuildCmd py srcsp bldsp inssp isolated) = 0 <;>
          · simp [packagingRun, build_and_package, bindM, pureM, jobRun, writeMarkerM,
              removeMarkerM, removeBins, opencvCopies, emit, runtimeFail, initSt, h0, hb]
    · simp [packagingRun, build_and_package, bindM, pureM, jobRun, writeMarkerM,
        removeMarkerM, removeBins, opencvCopies, emit, runtimeFail, initSt, h0]
  · intro h0
    rcases osArg with _ | o
    · constructor <;>
        simp [packagingRun, build_and_package, bindM, pureM, jobRun, writeMarkerM,
          removeMarkerM, removeBins, opencvCopies, emit, runtimeFail, initSt, h0]
    · cases o <;>
      · by_cases hb : world (bridgeBuildCmd py srcsp bldsp inssp isolated) = 0 <;>
        · constructor <;>
            simp [packagingRun, build_and_package, bindM, pureM, jobRun, writeMarkerM,
              removeMarkerM, removeBins, opencvCopies, emit, runtimeFail, initSt, h0, hb]
  · intro c hc hw
    refine ⟨?_, ?_, ?_⟩ <;>
      simp [packagingRun, build_and_package, bindM, pureM, jobRun, writeMarkerM,
        removeMarkerM, removeBins, opencvCopies, emit, runtimeFail, initSt, hw, hc]

/-- Witness for `packaging_marker_lifecycle` at concrete inputs: a
successful main build leaves no sentinel; a failing one aborts with its
exit code. -/
theorem packaging_marker_lifecycle_witness :
    ((packagingRun "/py" "/ci" "src" "build" "install" false (some OsName.linux)
        true ["simple_bridge_x"] (fun _ => 0)).2.marker = false)
    ∧ ((packagingRun "/py" "/ci" "src" "build" "install" false (some OsName.linux)
        true ["simple_bridge_x"] (fun _ => 1)).1
        = Except.error (Fatal.cmdExit 1)) :=
  ⟨((packaging_marker_lifecycle "/py" "/ci" "src" "build" "install" false
      (some OsName.linux) ["simple_bridge_x"] (fun _ => 0)).2.1 rfl).1,
   (((packaging_marker_lifecycle "/py" "/ci" "src" "build" "install" false
      (some OsName.linux) ["simple_bridge_x"] (fun _ => 1)).2.2 1
      (by decide) rfl).1)⟩

set_option maxHeartbeats 2000000 in
/-- C5: for every run that reaches the build stage (every fail-fast
command up to that point returns 0 — the hypotheses constrain the world
oracle on exactly those commands and leave the build, test and
results-collection exit codes fully unconstrained), the pipeline does not
abort and its final return value is 0. -/
theorem soft_failures_zero (pn sysE cwd0 : String) (term0 : Option String)
    (srcEx : Bool) (args : Args) (osv : OsName) (world : List String → Nat)
    (hsel : selectOs args.os pn = some osv)
    (hnv : ¬(args.do_venv = true ∧ osv = OsName.windows))
    (hpre : world (prereqCmd sysE) = 0)
    (hvenv : world (venvCmd sysE) = 0)
    (hst : ∀ py, world (setuptoolsCmd py) = 0)
    (hsv : ∀ py, world (setuptoolsVersionCmd py) = 0)
    (hpv : ∀ py, world (pipVersionCmd py) = 0)
    (hdep : ∀ py, world (depsCmd py) = 0)
    (hfetch : world (fetchCmd args.repo_file_url) = 0)
    (himp : ∀ ss, world (importSrcCmd ss) = 0)
    (hlog : world vcsLogCmd = 0) :
    (mainRun pn sysE cwd0 term0 srcEx args world).1 = Except.ok 0 := by
  obtain ⟨url, tb, wsi, dv, osflag, cn, fc⟩ := args
  simp only at hsel hfetch hnv
  cases dv <;> cases osv <;> cases tb <;> cases srcEx
  all_goals try (refine absurd ⟨?_, ?_⟩ hnv <;> rfl)
  all_goals
    simp [mainRun, mainM, innerBody, bindM, pureM, jobRun, emit, getCwd,
      getPython, push_run, push_python, change_directory, clean_workspace,
      configExitM, attrFail, initSt, hsel, hpre, hvenv, hst, hsv, hpv, hdep,
      hfetch, himp, hlog]
  all_goals split
  all_goals try rfl
  all_goals rename_i heq
  all_goals split at heq <;> simp [pureM, emit] at heq

/-- Witness for `soft_failures_zero` at a concrete input whose world oracle
returns exit code 3 for the build and test invocations (the only commands
with 10 tokens) and 0 for everything else: the pipeline still returns 0. -/
theorem soft_failures_zero_witness :
    (mainRun "Linux-5.15.0-x86_64-with-glibc2.31" "/usr/bin/python3" "/home/ci"
      none false defaultArgs
      (fun ts => if ts.length = 10 then 3 else 0)).1 = Except.ok 0 :=
  soft_failures_zero "Linux-5.15.0-x86_64-with-glibc2.31" "/usr/bin/python3"
    "/home/ci" none false defaultArgs OsName.linux
    (fun ts => if ts.length = 10 then 3 else 0)
    (by decide) (by decide) rfl rfl (fun _ => rfl) (fun _ => rfl)
    (fun _ => rfl) (fun _ => rfl) rfl (fun _ => rfl) rfl

set_option maxHeartbeats 4000000 in
/-- C6: a non-zero exit from any of the four fail-fast stages aborts the
pipeline immediately with that exit code and no subsequent stage executes.
The four conjuncts cover, in pipeline order: the virtualenv prerequisite
install (which only runs on non-linux hosts, and fails before the workspace
is ever entered), the pip dependency install (after which the manifest
fetch never runs), the manifest fetch (after which the source checkout
never runs — the claim's highlighted scenario), and the source checkout
(after which the revision log never runs).  In each case the trace ends at
the failing command — followed only by the scope-exit restore of the
working directory for stages inside the workspace — and the run's result
is the failing command's exit code. -/
theorem fatal_stage_aborts (pn sysE cwd0 : String) (term0 : Option String)
    (srcEx : Bool) (args : Args) (osv : OsName) (c : Nat)
    (hsel : selectOs args.os pn = some osv)
    (hnv : ¬(args.do_venv = true ∧ osv = OsName.windows))
    (hc : c ≠ 0) :
    (∀ world : List String → Nat, osv ≠ OsName.linux →
      world (prereqCmd sysE) = c →
      (mainRun pn sysE cwd0 term0 srcEx args world).1
        = Except.error (Fatal.cmdExit c)
      ∧ (mainRun pn sysE cwd0 term0 srcEx args world).2.events.getLast?
        = some (Ev.cmd (prereqCmd sysE) false true c)
      ∧ ∀ d, Ev.chdirEnter d ∉ (mainRun pn sysE cwd0 term0 srcEx args world).2.events)
    ∧
    (∀ world : List String → Nat,
      world (prereqCmd sysE) = 0 → world (venvCmd sysE) = 0 →
      (∀ py, world (setuptoolsCmd py) = 0) →
      (∀ py, world (setuptoolsVersionCmd py) = 0) →
      (∀ py, world (pipVersionCmd py) = 0) →
      (∀ py, world (depsCmd py) = c) →
      (mainRun pn sysE cwd0 term0 srcEx args world).1
        = Except.error (Fatal.cmdExit c)
      ∧ (mainRun pn sysE cwd0 term0 srcEx args world).2.events.reverse.take 2
        = [Ev.chdirRestore cwd0,
           Ev.cmd (depsCmd (activePython sysE cwd0 args)) false true c]
      ∧ ∀ sh eo cd, Ev.cmd (fetchCmd args.repo_file_url) sh eo cd
          ∉ (mainRun pn sysE cwd0 term0 srcEx args world).2.events)
    ∧
    (∀ world : List String → Nat,
      world (prereqCmd sysE) = 0 → world (venvCmd sysE) = 0 →
      (∀ py, world (setuptoolsCmd py) = 0) →
      (∀ py, world (setuptoolsVersionCmd py) = 0) →
      (∀ py, world (pipVersionCmd py) = 0) →
      (∀ py, world (depsCmd py) = 0) →
      world (fetchCmd args.repo_file_url) = c →
      (mainRun pn sysE cwd0 term0 srcEx args world).1
        = Except.error (Fatal.cmdExit c)
      ∧ (mainRun pn sysE cwd0 term0 srcEx args world).2.events.reverse.take 2
        = [Ev.chdirRestore cwd0,
           Ev.cmd (fetchCmd args.repo_file_url) false true c]
      ∧ ∀ ss sh eo cd, Ev.cmd (importSrcCmd ss) sh eo cd
          ∉ (mainRun pn sysE cwd0 term0 srcEx args world).2.events)
    ∧
    (∀ world : List String → Nat,
      world (prereqCmd sysE) = 0 → world (venvCmd sysE) = 0 →
      (∀ py, world (setuptoolsCmd py) = 0) →
      (∀ py, world (setuptoolsVersionCmd py) = 0) →
      (∀ py, world (pipVersionCmd py) = 0) →
      (∀ py, world (depsCmd py) = 0) →
      world (fetchCmd args.repo_file_url) = 0 →
      (∀ ss, world (importSrcCmd ss) = c) →
      (mainRun pn sysE cwd0 term0 srcEx args world).1
        = Except.error (Fatal.cmdExit c)
      ∧ (mainRun pn sysE cwd0 term0 srcEx args world).2.events.reverse.take 2
        = [Ev.chdirRestore cwd0,
           Ev.cmd (importSrcCmd (resolveSpaces args.white_space_in).sourcespace)
             true true c]
      ∧ ∀ sh eo cd, Ev.cmd vcsLogCmd sh eo cd
          ∉ (mainRun pn sysE cwd0 term0 srcEx args world).2.events) := by
  obtain ⟨url, tb, wsi, dv, osflag, cn, fc⟩ := args
  simp only at hsel hnv
  refine ⟨?_, ?_, ?_, ?_⟩
  · intro world hlin hw
    cases dv <;> cases osv
    all_goals try (refine absurd ⟨?_, ?_⟩ hnv <;> rfl)
    all_goals try (exact absurd rfl hlin)
    all_goals
      refine ⟨?_, ?_, ?_⟩ <;>
        simp [mainRun, mainM, innerBody, bindM, pureM, jobRun, emit, getCwd,
          getPython, push_run, push_python, change_directory, clean_workspace,
          configExitM, attrFail, initSt, hsel, hw, hc]
  · intro world hpre hvenv hst hsv hpv hdep
    cases dv <;> cases osv
    all_goals try (refine absurd ⟨?_, ?_⟩ hnv <;> rfl)
    all_goals
      refine ⟨?_, ?_, ?_⟩ <;>
        simp [mainRun, mainM, innerBody, bindM, pureM, jobRun, emit, getCwd,
          getPython, push_run, push_python, change_directory, clean_workspace,
          configExitM, attrFail, initSt, activePython, hsel, hpre, hvenv, hst,
          hsv, hpv, hdep, hc]
    all_goals try
      simp [fetchCmd, setuptoolsCmd, setuptoolsVersionCmd, pipVersionCmd,
        depsCmd, prereqCmd, venvCmd, quoteArg, pip_dependencies]
  · intro world hpre hvenv hst hsv hpv hdep hfetch
    cases dv <;> cases osv
    all_goals try (refine absurd ⟨?_, ?_⟩ hnv <;> rfl)
    all_goals
      refine ⟨?_, ?_, ?_⟩ <;>
        simp [mainRun, mainM, innerBody, bindM, pureM, jobRun, emit, getCwd,
          getPython, push_run, push_python, change_directory, clean_workspace,
          configExitM, attrFail, initSt, hsel, hpre, hvenv, hst, hsv, hpv, hdep,
          hfetch, hc]
    all_goals try
      simp [importSrcCmd, fetchCmd, setuptoolsCmd, setuptoolsVersionCmd,
        pipVersionCmd, depsCmd, prereqCmd, venvCmd, quoteArg, pip_dependencies]
  · intro world hpre hvenv hst hsv hpv hdep hfetch himp
    cases dv <;> cases osv <;> cases srcEx
    all_goals try (refine absurd ⟨?_, ?_⟩ hnv <;> rfl)
    all_goals
      refine ⟨?_, ?_, ?_⟩ <;>
        simp [mainRun, mainM, innerBody, bindM, pureM, jobRun, emit, getCwd,
          getPython, push_run, push_python, change_directory, clean_workspace,
          configExitM, attrFail, initSt, hsel, hpre, hvenv, hst, hsv, hpv, hdep,
          hfetch, himp, hc]
    all_goals try
      simp [importSrcCmd, fetchCmd, setuptoolsCmd, setuptoolsVersionCmd,
        pipVersionCmd, depsCmd, prereqCmd, venvCmd, vcsLogCmd, quoteArg,
        pip_dependencies]

/-- Witness for `fatal_stage_aborts` at a concrete input: a world oracle
that fails (exit 7) exactly on the manifest fetch (the only command whose
second token is `-sk`) aborts the run with code 7, and no source-checkout
(`vcs import`) command ever appears in the trace. -/
theorem fatal_stage_aborts_witness :
    (mainRun "Linux-5.15.0-x86_64-with-glibc2.31" "/usr/bin/python3" "/home/ci"
        none false defaultArgs
        (fun ts => if (ts.drop 1).take 1 = ["-sk"] then 7 else 0)).1
      = Except.error (Fatal.cmdExit 7)
    ∧ ∀ ss sh eo cd, Ev.cmd (importSrcCmd ss) sh eo cd
        ∉ (mainRun "Linux-5.15.0-x86_64-with-glibc2.31" "/usr/bin/python3"
            "/home/ci" none false defaultArgs
            (fun ts => if (ts.drop 1).take 1 = ["-sk"] then 7 else 0)).2.events :=
  let ap := (fatal_stage_aborts "Linux-5.15.0-x86_64-with-glibc2.31"
    "/usr/bin/python3" "/home/ci" none false defaultArgs OsName.linux 7
    (by decide) (by decide) (by decide)).2.2.1
    (fun ts => if (ts.drop 1).take 1 = ["-sk"] then 7 else 0)
    rfl rfl (fun _ => rfl) (fun _ => rfl) (fun _ => rfl) (fun _ => rfl) rfl
  And.intro ap.1 ap.2.2

end Ros2Batch
